import Mathlib

/-!
Verification of the gemba binding header (`src/ext/gemba/gemba_ext.h`).

The repository slice is a C header declaring the binding surface between a
scripting-language runtime and the mGBA emulator core library.  We embed the
header as a list of C translation-unit items rich enough to distinguish
forward declarations and include directives from definitions carrying
algorithmic content, together with a small model of the C preprocessor's
include-guard mechanism.
-/

/-- C types as they appear in the binding surface.  `VALUE` is the host
scripting runtime's opaque object handle (declared by `ruby.h`); `structTy`
stands for a struct type with named fields, the shape a data structure with
semantic content would take. -/
inductive CType where
  | void : CType
  | int : CType
  | VALUE : CType
  | ptr : CType → CType
  | structTy : List String → CType
deriving DecidableEq

/-- Statements, the shape a function body (control flow) would take if the
header contained one. -/
inductive Stmt where
  | skip : Stmt
  | call : String → Stmt
  | seq : Stmt → Stmt → Stmt
  | ifElse : Stmt → Stmt → Stmt
  | whileLoop : Stmt → Stmt
deriving DecidableEq

/-- Items of a C header: include directives and forward declarations, plus the
definition forms (function bodies, struct definitions, variable definitions)
that would carry algorithmic content or state if present. -/
inductive HeaderItem where
  | includeDirective : String → HeaderItem
  | externVar : String → CType → HeaderItem
  | funDecl : String → CType → List CType → HeaderItem
  | funDef : String → CType → List CType → Stmt → HeaderItem
  | structDef : String → List String → HeaderItem
  | varDef : String → CType → HeaderItem
deriving DecidableEq

/-- A header file: an optional include guard and the items between the guard
lines. -/
structure Header where
  guardedBy : Option String
  items : List HeaderItem
deriving DecidableEq

/-- The module handle declaration, line 13 of `gemba_ext.h`:
`extern VALUE mGemba;`. -/
def mGemba : HeaderItem := HeaderItem.externVar "mGemba" CType.VALUE

/-- The initializer declaration, line 15 of `gemba_ext.h`:
`void Init_gemba_ext(void);`. -/
def Init_gemba_ext : HeaderItem := HeaderItem.funDecl "Init_gemba_ext" CType.void []

/-- The header `src/ext/gemba/gemba_ext.h`, item by item: the `GEMBA_EXT_H`
include guard, the eight include directives of lines 4-11, the module handle
and the initializer declaration. -/
def gemba_ext_h : Header :=
  { guardedBy := some "GEMBA_EXT_H"
  , items :=
      [ HeaderItem.includeDirective "ruby.h"
      , HeaderItem.includeDirective "mgba/core/core.h"
      , HeaderItem.includeDirective "mgba/core/config.h"
      , HeaderItem.includeDirective "mgba/core/directories.h"
      , HeaderItem.includeDirective "mgba/core/log.h"
      , HeaderItem.includeDirective "mgba-util/vfs.h"
      , HeaderItem.includeDirective "mgba/internal/gba/bios.h"
      , HeaderItem.includeDirective "mgba/internal/gba/gba.h"
      , mGemba
      , Init_gemba_ext ] }

/-- Modelled from the spec: the first header variant, which is not under
`src/`.  The spec describes the material as two near-duplicate headers, one a
superset of the other, with the GBA-specific BIOS and hardware includes
present in the second variant only; so the first variant is the second minus
those two include directives. -/
def gemba_ext_h_v1 : Header :=
  { guardedBy := some "GEMBA_EXT_H"
  , items :=
      [ HeaderItem.includeDirective "ruby.h"
      , HeaderItem.includeDirective "mgba/core/core.h"
      , HeaderItem.includeDirective "mgba/core/config.h"
      , HeaderItem.includeDirective "mgba/core/directories.h"
      , HeaderItem.includeDirective "mgba/core/log.h"
      , HeaderItem.includeDirective "mgba-util/vfs.h"
      , mGemba
      , Init_gemba_ext ] }

/-- The functions a header declares (forward declarations and definitions),
with return type and parameter types. -/
def Header.declaredFunctions (h : Header) : List (String × CType × List CType) :=
  h.items.filterMap fun i =>
    match i with
    | HeaderItem.funDecl n r ps => some (n, r, ps)
    | HeaderItem.funDef n r ps _ => some (n, r, ps)
    | _ => none

/-- The variables (global objects) a header declares, with their types. -/
def Header.declaredVars (h : Header) : List (String × CType) :=
  h.items.filterMap fun i =>
    match i with
    | HeaderItem.externVar n t => some (n, t)
    | HeaderItem.varDef n t => some (n, t)
    | _ => none

/-- Every symbol a header declares, variables and functions alike. -/
def Header.declaredSymbols (h : Header) : List String :=
  h.items.filterMap fun i =>
    match i with
    | HeaderItem.externVar n _ => some n
    | HeaderItem.varDef n _ => some n
    | HeaderItem.funDecl n _ _ => some n
    | HeaderItem.funDef n _ _ _ => some n
    | HeaderItem.structDef n _ => some n
    | HeaderItem.includeDirective _ => none

/-- The paths of the include directives of a header, in order. -/
def Header.includedPaths (h : Header) : List String :=
  h.items.filterMap fun i =>
    match i with
    | HeaderItem.includeDirective p => some p
    | _ => none

/-- The function bodies a header contains: the control flow present in it. -/
def Header.bodies (h : Header) : List Stmt :=
  h.items.filterMap fun i =>
    match i with
    | HeaderItem.funDef _ _ _ b => some b
    | _ => none

/-- The struct definitions a header contains: the data structures defined in
it. -/
def Header.structDefs (h : Header) : List (String × List String) :=
  h.items.filterMap fun i =>
    match i with
    | HeaderItem.structDef n fs => some (n, fs)
    | _ => none

/-- An item is purely declarative when it is an include directive or a forward
declaration, carrying no body, no fields and no storage of its own. -/
def HeaderItem.isDeclarativeOnly : HeaderItem → Bool
  | HeaderItem.includeDirective _ => true
  | HeaderItem.externVar _ _ => true
  | HeaderItem.funDecl _ _ _ => true
  | _ => false

/-- An item is a definition when it carries a function body, struct fields or
storage: the forms a guard mechanism or algorithmic content would need. -/
def HeaderItem.isDefinition : HeaderItem → Bool
  | HeaderItem.funDef _ _ _ _ => true
  | HeaderItem.structDef _ _ => true
  | HeaderItem.varDef _ _ => true
  | _ => false

/-- A type has semantic fields exactly when it is a struct type; the scalar
and handle types carry no structural content. -/
def CType.hasSemanticFields : CType → Bool
  | CType.structTy _ => true
  | _ => false

/-- A type that conventionally carries an error code in C. -/
def CType.isErrorCodeType : CType → Bool
  | CType.int => true
  | _ => false

/-- Whether a declared item exposes a failure channel: a function whose return
type is not `void` (an error result or error code) or that takes a pointer
parameter (an out-parameter error channel), or a global of an error-code
type. -/
def HeaderItem.declaresFailureChannel : HeaderItem → Bool
  | HeaderItem.funDecl _ r ps =>
      !(r == CType.void) || ps.any (fun p => match p with | CType.ptr _ => true | _ => false)
  | HeaderItem.funDef _ r ps _ =>
      !(r == CType.void) || ps.any (fun p => match p with | CType.ptr _ => true | _ => false)
  | HeaderItem.externVar _ t => t.isErrorCodeType
  | HeaderItem.varDef _ t => t.isErrorCodeType
  | _ => false

/-- The subsystems the spec's external-interface section names, plus the host
scripting runtime itself. -/
inductive Subsystem where
  | hostRuntime : Subsystem
  | coreLifecycle : Subsystem
  | configuration : Subsystem
  | standardDirectories : Subsystem
  | logging : Subsystem
  | virtualFilesystem : Subsystem
  | gbaBios : Subsystem
  | gbaHardware : Subsystem
deriving DecidableEq

/-- Classification of each include path by the subsystem whose interface it
brings in, read off the path names in the source. -/
def subsystemOf : String → Option Subsystem
  | "ruby.h" => some Subsystem.hostRuntime
  | "mgba/core/core.h" => some Subsystem.coreLifecycle
  | "mgba/core/config.h" => some Subsystem.configuration
  | "mgba/core/directories.h" => some Subsystem.standardDirectories
  | "mgba/core/log.h" => some Subsystem.logging
  | "mgba-util/vfs.h" => some Subsystem.virtualFilesystem
  | "mgba/internal/gba/bios.h" => some Subsystem.gbaBios
  | "mgba/internal/gba/gba.h" => some Subsystem.gbaHardware
  | _ => none

/-- Modelled from the spec: the external-collaborator surface section 6
lists — core lifecycle and execution control, configuration loading/merging,
standard directory resolution, logging sink registration, the virtual
filesystem abstraction, and the GBA-specific BIOS and hardware definitions. -/
def specCollaboratorSurface : List Subsystem :=
  [ Subsystem.coreLifecycle
  , Subsystem.configuration
  , Subsystem.standardDirectories
  , Subsystem.logging
  , Subsystem.virtualFilesystem
  , Subsystem.gbaBios
  , Subsystem.gbaHardware ]

/-- One step of the preprocessor on an include of `h`: if the header is
guarded and its guard name is already defined, nothing is emitted; otherwise
the guard name (if any) is defined and the items are emitted. -/
def expandOnce (defined : List String) (h : Header) : List String × List HeaderItem :=
  match h.guardedBy with
  | none => (defined, h.items)
  | some g => if g ∈ defined then (defined, []) else (g :: defined, h.items)

/-- The items emitted by `n` successive inclusions of `h`, starting from the
set `defined` of already-defined names. -/
def expandFrom (defined : List String) (h : Header) : Nat → List HeaderItem
  | 0 => []
  | n + 1 =>
      let step := expandOnce defined h
      step.2 ++ expandFrom step.1 h n

/-- The items a translation unit receives from including `h` a total of `n`
times, starting with no names defined. -/
def includeNTimes (h : Header) (n : Nat) : List HeaderItem :=
  expandFrom [] h n

theorem expandFrom_guard_defined (h : Header) (g : String) (defined : List String)
    (hg : h.guardedBy = some g) (hmem : g ∈ defined) (n : Nat) :
    expandFrom defined h n = [] := by
  induction n with
  | zero => rfl
  | succ k ih => simp [expandFrom, expandOnce, hg, hmem, ih]

theorem includeNTimes_guarded (h : Header) (g : String) (hg : h.guardedBy = some g)
    (n : Nat) (hn : 1 ≤ n) :
    includeNTimes h n = h.items := by
  obtain ⟨k, rfl⟩ : ∃ k, n = k + 1 := ⟨n - 1, (Nat.succ_pred_eq_of_pos hn).symm⟩
  have hnot : g ∉ ([] : List String) := List.not_mem_nil g
  simp only [includeNTimes, expandFrom, expandOnce, hg, if_neg hnot]
  rw [expandFrom_guard_defined h g (g :: []) hg (List.mem_singleton.mpr rfl) k]
  simp

/-- C1: the header declares exactly one function, the initializer
`Init_gemba_ext`, and its return type is `void` with no parameters. -/
theorem claim_C1_sole_declared_function :
    Header.declaredFunctions gemba_ext_h = [("Init_gemba_ext", CType.void, [])] := by
  decide

/-- C2 counterexample: `mGemba` is not the only symbol the header declares —
`Init_gemba_ext` is also a declared symbol and is distinct from `mGemba`. -/
theorem claim_C2_counterexample :
    "Init_gemba_ext" ∈ Header.declaredSymbols gemba_ext_h ∧
      "Init_gemba_ext" ≠ "mGemba" := by
  constructor
  · decide
  · decide

/-- C2 amended: `mGemba` is the only variable (non-function object) the
header declares, its type is the host runtime's opaque `VALUE` handle, and
that type carries no semantic fields. -/
theorem claim_C2_amended :
    Header.declaredVars gemba_ext_h = [("mGemba", CType.VALUE)] ∧
      CType.hasSemanticFields CType.VALUE = false := by
  constructor
  · decide
  · decide

/-- C3: the material is two near-duplicate header variants — the first
variant's items form a strict sublist of `gemba_ext.h`'s, and the GBA
BIOS and hardware include directives appear in the second variant only. -/
theorem claim_C3_two_variants_superset :
    List.isSublist gemba_ext_h_v1.items gemba_ext_h.items = true ∧
      gemba_ext_h_v1.items ≠ gemba_ext_h.items ∧
      HeaderItem.includeDirective "mgba/internal/gba/bios.h" ∈ gemba_ext_h.items ∧
      HeaderItem.includeDirective "mgba/internal/gba/gba.h" ∈ gemba_ext_h.items ∧
      HeaderItem.includeDirective "mgba/internal/gba/bios.h" ∉ gemba_ext_h_v1.items ∧
      HeaderItem.includeDirective "mgba/internal/gba/gba.h" ∉ gemba_ext_h_v1.items := by
  refine ⟨by decide, by decide, by decide, by decide, by decide, by decide⟩

/-- C4: every item of both supplied header variants is an include directive
or a forward declaration; neither variant contains a function body, a struct
definition or a variable definition, so no algorithmic content, data
structure or control flow is present. -/
theorem claim_C4_declarations_only :
    gemba_ext_h.items.all HeaderItem.isDeclarativeOnly = true ∧
      gemba_ext_h_v1.items.all HeaderItem.isDeclarativeOnly = true ∧
      Header.bodies gemba_ext_h = [] ∧
      Header.structDefs gemba_ext_h = [] := by
  refine ⟨by decide, by decide, by decide, by decide⟩

/-- C5: every include directive of the header classifies to a subsystem, and
the classified list is exactly the host runtime header followed by the
spec's listed collaborator surface — core lifecycle, configuration, standard
directories, logging, virtual filesystem, GBA BIOS and GBA hardware — with
nothing extra and nothing missing. -/
theorem claim_C5_collaborator_surface :
    (Header.includedPaths gemba_ext_h).filterMap subsystemOf =
        Subsystem.hostRuntime :: specCollaboratorSurface ∧
      ((Header.includedPaths gemba_ext_h).filterMap subsystemOf).length =
        (Header.includedPaths gemba_ext_h).length := by
  refine ⟨by decide, by decide⟩

/-- C6: the header contains nothing that could guard against a repeated call
of the initializer — it declares no variable besides the module handle, no
function besides the initializer itself, and no item of it is a definition
(so it contains no state, predicate or mechanism at all). -/
theorem claim_C6_no_repeat_call_guard :
    (Header.declaredVars gemba_ext_h).map Prod.fst = ["mGemba"] ∧
      (Header.declaredFunctions gemba_ext_h).map Prod.fst = ["Init_gemba_ext"] ∧
      gemba_ext_h.items.all (fun i => !(HeaderItem.isDefinition i)) = true := by
  refine ⟨by decide, by decide, by decide⟩

/-- C7: no declared item of the header exposes a failure channel — the sole
declared function returns `void` with no pointer out-parameter, and the sole
declared variable is not of an error-code type. -/
theorem claim_C7_no_error_channel :
    gemba_ext_h.items.all (fun i => !(HeaderItem.declaresFailureChannel i)) = true := by
  decide

/-- C8: the module handle is the only global variable the header declares. -/
theorem claim_C8_single_global :
    (Header.declaredVars gemba_ext_h).map Prod.fst = ["mGemba"] := by
  decide

/-- C9: inclusion of the header is idempotent — because of the `GEMBA_EXT_H`
include guard, including `gemba_ext.h` any positive number of times in a
translation unit yields exactly the items of a single inclusion. -/
theorem claim_C9_inclusion_idempotent (n : Nat) (hn : 1 ≤ n) :
    includeNTimes gemba_ext_h n = includeNTimes gemba_ext_h 1 := by
  rw [includeNTimes_guarded gemba_ext_h "GEMBA_EXT_H" rfl n hn,
    includeNTimes_guarded gemba_ext_h "GEMBA_EXT_H" rfl 1 (by decide)]

/-- C9 witness: including the header three times yields the same items as
including it once. -/
theorem claim_C9_witness :
    1 ≤ 3 ∧ includeNTimes gemba_ext_h 3 = includeNTimes gemba_ext_h 1 :=
  ⟨by decide, claim_C9_inclusion_idempotent 3 (by decide)⟩

/-- C10: the host scripting runtime is Ruby — the header includes `ruby.h`
and declares the module handle `mGemba` with Ruby's opaque `VALUE` type. -/
theorem claim_C10_ruby_host :
    "ruby.h" ∈ Header.includedPaths gemba_ext_h ∧
      Header.declaredVars gemba_ext_h = [("mGemba", CType.VALUE)] := by
  refine ⟨by decide, by decide⟩
